import Mathlib

/-!
Verification of the x402 payment-protocol HTTP engine
(x402HTTPResourceService, the express middleware and the paywall builder)
as a shallow embedding in Lean 4.

The embedding follows the TypeScript sources. External collaborators
(header codec, facilitator verify and settle, paywall renderer) are passed
in as explicit function-valued parameters bundled in the Collab structure,
mirroring the call contract of spec section 6. Pieces of the repository
that sit outside src (the x402ResourceService base class) are modelled
from the spec and carry a doc comment starting with Modelled from the
spec.
-/

set_option maxRecDepth 4000

/-! ## String helpers (JS string semantics used by the sources) -/

/-- Character-level membership test for a prefix, used to model the JS
String.prototype.startsWith call on listed networks. -/
def startsWithList : List Char → List Char → Bool
  | [], _ => true
  | _ :: _, [] => false
  | a :: as, b :: bs => a == b && startsWithList as bs

/-- Model of the JS call s.startsWith(pre). -/
def strStartsWith (s pre : String) : Bool :=
  startsWithList pre.data s.data

/-- Model of the JS call hay.includes(needle): substring containment. -/
def isSubstr : List Char → List Char → Bool
  | needle, [] => needle.isEmpty
  | needle, h :: t => startsWithList needle (h :: t) || isSubstr needle t

/-- Model of the JS call hay.includes(needle) on strings. -/
def jsIncludes (hay needle : String) : Bool :=
  isSubstr needle.data hay.data

/-- Digits of a decimal numeral folded to a natural number. -/
def digitsToNat (cs : List Char) : Nat :=
  cs.foldl (fun n c => n * 10 + (c.toNat - 48)) 0

/-- Model of the JS call s.toUpperCase(). -/
def upperStr (s : String) : String :=
  String.mk (s.data.map Char.toUpper)

/-- Model of the JS call s.toLowerCase(). -/
def lowerStr (s : String) : String :=
  String.mk (s.data.map Char.toLower)

/-! ## Route pattern compiler (parseRoutePattern, src/unnamed/part_003 lines 406-421)

The source builds a JS RegExp from the route pattern: it escapes the
characters dollar ( ) + . ? caret curly-braces bar, turns each star into
the lazy dot-star, turns each bracketed nonempty name into the class of
one-or-more non-slash characters, escapes slashes, anchors the result and
compiles it case-insensitively. We embed the compiled matcher as a token
list: the escape set and every other plain character denote a literal
character; a star denotes a lazy dot-run (a JS dot does not match line
terminators); a bracketed name denotes one nonempty slash-free run. A
backslash is NOT in the escape set of the source, so a backslash sequence
keeps its regex meaning: the fragment we model includes the digit class
produced by a backslash followed by the letter d. Patterns whose compiled
regex falls outside this fragment (other backslash escapes, an unpaired
or empty bracket, for which the RegExp constructor may throw) compile to
none. -/

/-- Token of a compiled route pattern. -/
inductive RTok where
  | lit (c : Char)
  | star
  | param
  | dclass
deriving DecidableEq, Repr

/-- Characters a JS dot matches: everything except line terminators. -/
def isDot (c : Char) : Bool :=
  !(c == '\n' || c == '\r' || c == '\u2028' || c == '\u2029')

/-- All ways to split a character list into a prefix and a suffix. -/
def splits : List Char → List (List Char × List Char)
  | [] => [([], [])]
  | c :: cs => ([], c :: cs) :: (splits cs).map (fun p => (c :: p.1, p.2))

/-- Anchored, case-insensitive matcher over compiled tokens: the meaning
of the anchored case-insensitive RegExp built by parseRoutePattern.
Star and param are matched existentially over splits, which coincides
with backtracking regex matching for match existence. -/
def tokMatch : List RTok → List Char → Bool
  | [], s => s.isEmpty
  | RTok.lit _ :: _, [] => false
  | RTok.lit c :: ts, d :: ds => (c.toLower == d.toLower) && tokMatch ts ds
  | RTok.dclass :: _, [] => false
  | RTok.dclass :: ts, d :: ds => d.isDigit && tokMatch ts ds
  | RTok.star :: ts, s => (splits s).any (fun p => p.1.all isDot && tokMatch ts p.2)
  | RTok.param :: ts, s =>
      (splits s).any (fun p => (!p.1.isEmpty) && p.1.all (fun c => c != '/') && tokMatch ts p.2)

/-- Content of a bracket group: the characters before the first closing
bracket, and the remainder after it (the source replaces a bracketed
nonempty name by the non-slash class). -/
def splitBracket : List Char → Option (List Char × List Char)
  | [] => none
  | c :: rest =>
      if c = ']' then some ([], rest)
      else (splitBracket rest).map (fun p => (c :: p.1, p.2))

/-- Fuel-indexed compilation of the path part of a route pattern into
tokens, replicating the replace chain of parseRoutePattern. The fuel is
structural so that compiled patterns evaluate by rfl. -/
def compileF : Nat → List Char → Option (List RTok)
  | 0, _ => none
  | _ + 1, [] => some []
  | f + 1, c :: rest =>
      if c = '*' then (compileF f rest).map (RTok.star :: ·)
      else if c = '[' then
        match splitBracket rest with
        | some p => if p.1.isEmpty then none else (compileF f p.2).map (RTok.param :: ·)
        | none => none
      else if c = '\\' then
        match rest with
        | d :: rest2 => if d = 'd' then (compileF f rest2).map (RTok.dclass :: ·) else none
        | [] => none
      else (compileF f rest).map (RTok.lit c :: ·)

/-- Compilation of the path part of a route pattern. -/
def compilePath (cs : List Char) : Option (List RTok) :=
  compileF (cs.length + 1) cs

/-- Splitting on runs of whitespace as the JS split on a whitespace-plus
regex does: maximal whitespace runs separate pieces, and a leading or
trailing run contributes an empty piece. The flag is true while inside a
separator run. -/
def splitWsAux : Bool → List Char → List Char → List String
  | false, [], cur => [String.mk cur.reverse]
  | false, c :: cs, cur =>
      if c.isWhitespace then String.mk cur.reverse :: splitWsAux true cs []
      else splitWsAux false cs (c :: cur)
  | true, [], _ => [""]
  | true, c :: cs, _ =>
      if c.isWhitespace then splitWsAux true cs []
      else splitWsAux false cs [c]

/-- Model of the JS split on a whitespace-plus regex. -/
def splitWs (s : String) : List String :=
  splitWsAux false s.data []

/-- Model of parseRoutePattern: an optional leading verb (present when the
pattern contains a space, default star), uppercased, and the compiled path
tokens. -/
def parseRoutePattern (pattern : String) : String × Option (List RTok) :=
  let vp :=
    if pattern.data.contains ' ' then
      let parts := splitWs pattern
      (parts.getD 0 "", parts.getD 1 "")
    else ("*", pattern)
  (upperStr vp.1, compilePath vp.2.data)

/-- Convenience wrapper: does the compiled form of a route pattern match a
path. Patterns outside the modelled regex fragment match nothing. -/
def pathPatternTest (pattern path : String) : Bool :=
  match (parseRoutePattern pattern).2 with
  | some ts => tokMatch ts path.data
  | none => false

/-! ## Path normalization (normalizePath, src/unnamed/part_003 lines 429-440) -/

/-- Prefix of the path before the first question mark or hash sign, the
zeroth piece of the JS split on the query-or-fragment class. -/
def stripQueryFrag (s : List Char) : List Char :=
  s.takeWhile (fun c => !(c == '?' || c == '#'))

/-- Value of a hexadecimal digit. -/
def hexVal (c : Char) : Option Nat :=
  if '0' ≤ c ∧ c ≤ '9' then some (c.toNat - 48)
  else if 'a' ≤ c ∧ c ≤ 'f' then some (c.toNat - 87)
  else if 'A' ≤ c ∧ c ≤ 'F' then some (c.toNat - 55)
  else none

/-- Byte denoted by two hexadecimal digits. -/
def byteOf (h l : Char) : Option Nat :=
  match hexVal h, hexVal l with
  | some hv, some lv => some (hv * 16 + lv)
  | _, _ => none

/-- Continuation byte test for strict UTF-8. -/
def isCont (b : Nat) : Bool :=
  decide (0x80 ≤ b ∧ b ≤ 0xBF)

/-- Model of decodeURIComponent: percent escapes decode as strict UTF-8
byte sequences (continuation bytes must themselves be percent escapes);
overlong forms, surrogates, out-of-range code points and malformed
escapes fail, modelling the URIError the JS function throws. Characters
outside escapes pass through unchanged. -/
def decodeChars : List Char → Option (List Char)
  | [] => some []
  | '%' :: h :: l :: rest =>
      match byteOf h l with
      | none => none
      | some b =>
        if b < 0x80 then (decodeChars rest).map (Char.ofNat b :: ·)
        else if b < 0xC0 then none
        else if b < 0xE0 then
          match rest with
          | '%' :: h2 :: l2 :: rest2 =>
              match byteOf h2 l2 with
              | none => none
              | some b2 =>
                if isCont b2 then
                  let v := (b - 0xC0) * 0x40 + (b2 - 0x80)
                  if v < 0x80 then none else (decodeChars rest2).map (Char.ofNat v :: ·)
                else none
          | _ => none
        else if b < 0xF0 then
          match rest with
          | '%' :: h2 :: l2 :: '%' :: h3 :: l3 :: rest2 =>
              match byteOf h2 l2, byteOf h3 l3 with
              | some b2, some b3 =>
                if isCont b2 && isCont b3 then
                  let v := (b - 0xE0) * 0x1000 + (b2 - 0x80) * 0x40 + (b3 - 0x80)
                  if v < 0x800 then none
                  else if 0xD800 ≤ v ∧ v ≤ 0xDFFF then none
                  else (decodeChars rest2).map (Char.ofNat v :: ·)
                else none
              | _, _ => none
          | _ => none
        else if b < 0xF8 then
          match rest with
          | '%' :: h2 :: l2 :: '%' :: h3 :: l3 :: '%' :: h4 :: l4 :: rest2 =>
              match byteOf h2 l2, byteOf h3 l3, byteOf h4 l4 with
              | some b2, some b3, some b4 =>
                if isCont b2 && isCont b3 && isCont b4 then
                  let v := (b - 0xF0) * 0x40000 + (b2 - 0x80) * 0x1000 +
                    (b3 - 0x80) * 0x40 + (b4 - 0x80)
                  if v < 0x10000 then none
                  else if v > 0x10FFFF then none
                  else (decodeChars rest2).map (Char.ofNat v :: ·)
                else none
              | _, _, _ => none
          | _ => none
        else none
  | '%' :: _ => none
  | c :: rest => (decodeChars rest).map (c :: ·)

/-- Collapsing of repeated slashes into one, tracking whether the previous
character was a slash. -/
def collapseGo : Bool → List Char → List Char
  | _, [] => []
  | prev, c :: rest =>
      if c == '/' then
        if prev then collapseGo true rest else '/' :: collapseGo true rest
      else c :: collapseGo false rest

/-- Model of the global replace of slash runs by a single slash. -/
def collapseSlashes (s : List Char) : List Char :=
  collapseGo false s

/-- Model of the single replace stripping a trailing slash run while
keeping at least one character (the lazy dot-plus group of the source
regex): no match, hence no change, on a string of fewer than two
characters or without a trailing slash. -/
def stripTrailingSlashes (s : List Char) : List Char :=
  let t := (s.reverse.dropWhile (fun c => c == '/')).reverse
  if t.isEmpty then if s.length ≥ 2 then ['/'] else s
  else if t.length = s.length then s else t

/-- Model of normalizePath: strip the query and fragment, URL-decode,
turn backslashes into slashes, collapse slash runs and strip a trailing
slash run; when URL-decoding fails the raw input is returned unchanged,
modelling the catch branch of the source. -/
def normalizePath (path : String) : String :=
  match decodeChars (stripQueryFrag path.data) with
  | none => path
  | some d =>
      String.mk (stripTrailingSlashes (collapseSlashes
        (d.map (fun c => if c == '\\' then '/' else c))))

/-! ## Data model (src/typescript/packages/core/src/types and part_003) -/

/-- Price of a route: a money string (display amount) or an explicit
asset-and-amount pair, from the core Price type. -/
inductive Price where
  | money (value : String)
  | assetAmount (asset : String) (amount : String)
deriving DecidableEq, Repr

/-- Route configuration, from the RouteConfig interface of part_003.
Fields not consulted by the verified operations are omitted. -/
structure RouteConfig where
  scheme : String
  payTo : String
  price : Price
  network : String
  maxTimeoutSeconds : Option Nat := none
  description : Option String := none
  mimeType : Option String := none
  customPaywallHtml : Option String := none
  extensions : Option (List (String × String)) := none
deriving DecidableEq, Repr

/-- One acceptable way to pay, version 2 shape of PaymentRequirements. -/
structure PaymentRequirements where
  scheme : String
  network : String
  asset : String
  amount : String
  payTo : String
  maxTimeoutSeconds : Nat
  extra : List (String × String) := []
deriving DecidableEq, Repr

/-- Client-presented payment artifact, from the PaymentPayload type. The
scheme-specific bundle is opaque to the engine and kept as a string. -/
structure PaymentPayload where
  x402Version : Nat
  scheme : String
  network : String
  payloadData : String
deriving DecidableEq, Repr

/-- Resource description attached to a negotiation response. -/
structure ResourceInfo where
  url : String
  description : String
  mimeType : String
deriving DecidableEq, Repr

/-- Full negotiation response, from the PaymentRequired type. -/
structure PaymentRequired where
  x402Version : Nat
  error : Option String
  resource : Option ResourceInfo
  accepts : List PaymentRequirements
  extensions : Option (List (String × String)) := none
deriving DecidableEq, Repr

/-- Verification collaborator result, from the VerifyResponse type. -/
structure VerifyResponse where
  isValid : Bool
  invalidReason : Option String := none
deriving DecidableEq, Repr

/-- Settlement collaborator result, from the SettleResponse type. -/
structure SettleResponse where
  success : Bool
  errorReason : Option String := none
  payer : Option String := none
  transaction : String
  network : String
deriving DecidableEq, Repr

/-- Transport adapter, from the HTTPAdapter interface as implemented by
ExpressAdapter: header lookup is case-insensitive, and url, accept and
user-agent are exposed directly. -/
structure HTTPAdapter where
  headers : List (String × String)
  url : String
  accept : String
  userAgent : String
deriving DecidableEq, Repr

/-- Case-insensitive header lookup of the adapter. -/
def getHeader (a : HTTPAdapter) (name : String) : Option String :=
  (a.headers.find? (fun kv => lowerStr kv.1 == lowerStr name)).map (fun kv => kv.2)

/-- HTTP request context handed to the engine. -/
structure HTTPRequestContext where
  adapter : HTTPAdapter
  path : String
  method : String
deriving DecidableEq, Repr

/-- Response instructions handed back to the framework middleware. -/
structure HTTPResponseInstructions where
  status : Nat
  headers : List (String × String)
  body : Option String := none
  isHtml : Option Bool := none
deriving DecidableEq, Repr

/-- Result of processing an HTTP request for payment: the tagged union
HTTPProcessResult of part_003 with exactly three variants. -/
inductive HTTPProcessResult where
  | noPaymentRequired
  | paymentVerified (paymentPayload : PaymentPayload) (paymentRequirements : PaymentRequirements)
  | paymentError (response : HTTPResponseInstructions)
deriving DecidableEq, Repr

/-- Paywall configuration, from the PaywallConfig interface. -/
structure PaywallConfig where
  cdpClientKey : Option String := none
  appName : Option String := none
  appLogo : Option String := none
  sessionTokenEndpoint : Option String := none
  currentUrl : Option String := none
  testnet : Option Bool := none
deriving DecidableEq, Repr

/-- Compiled route, from the CompiledRoute interface: verb, compiled
pattern tokens (none when the pattern is outside the modelled regex
fragment) and the owning configuration. -/
structure CompiledRoute where
  verb : String
  toks : Option (List RTok)
  config : RouteConfig
deriving DecidableEq, Repr

/-- External collaborators of the engine, per spec section 6: the header
codec (decode of the payment header, encode of the negotiation and
settlement artifacts), the facilitator verify and settle calls, and the
optional paywall renderer. Decode returns none where the source catches a
thrown DecodeError; verify and settle return an error value where the
source catches a thrown error. -/
structure Collab where
  decode : String → Option PaymentPayload
  verify : PaymentPayload → PaymentRequirements → Except String VerifyResponse
  settle : PaymentPayload → PaymentRequirements → Except String SettleResponse
  encodePaymentRequired : PaymentRequired → String
  encodeSettleResponse : SettleResponse → String
  paywallHtml : PaymentRequired → Option PaywallConfig → String

/-! ## Route compilation and lookup (part_003 constructor, getRouteConfig) -/

/-- Compilation of an ordered route table, as the constructor of
x402HTTPResourceService does over the entries of the routes object. -/
def compileRoutes (pats : List (String × RouteConfig)) : List CompiledRoute :=
  pats.map (fun pc =>
    let v := parseRoutePattern pc.1
    { verb := v.1, toks := v.2, config := pc.2 })

/-- Test of a compiled route pattern against a (normalized) path. -/
def regexTest (r : CompiledRoute) (s : String) : Bool :=
  match r.toks with
  | some ts => tokMatch ts s.data
  | none => false

/-- Predicate of the find call inside getRouteConfig: the pattern matches
the normalized path and the verb is the wildcard or equals the uppercased
method. -/
def routeMatches (r : CompiledRoute) (normalizedPath method : String) : Bool :=
  regexTest r normalizedPath && (r.verb == "*" || r.verb == upperStr method)

/-- Model of getRouteConfig: configuration of the first compiled route
accepting the normalized path and the method. -/
def getRouteConfig (routes : List CompiledRoute) (path method : String) : Option RouteConfig :=
  (routes.find? (fun r => routeMatches r (normalizePath path) method)).map (fun r => r.config)

/-! ## Payment extraction (extractPayment, part_003 lines 311-324) -/

/-- JS truthiness filter on an optional string: the empty string is falsy. -/
def truthyStr : Option String → Option String
  | some s => if s.isEmpty then none else some s
  | none => none

/-- Model of the JS expression a or-else b on header values: the value of
b when a is falsy. -/
def jsOrStr (a b : Option String) : Option String :=
  match truthyStr a with
  | some s => some s
  | none => b

/-- Header consulted by extractPayment: the payment-signature header under
either spelling, with JS truthiness (the engine never reads the x-payment
header). -/
def paymentSigHeader (a : HTTPAdapter) : Option String :=
  truthyStr (jsOrStr (getHeader a "payment-signature") (getHeader a "PAYMENT-SIGNATURE"))

/-- Model of extractPayment: decode the payment-signature header; a decode
failure is caught and yields none, like an absent header. -/
def extractPayment (decode : String → Option PaymentPayload) (a : HTTPAdapter) :
    Option PaymentPayload :=
  (paymentSigHeader a).bind decode

/-- Payment header the express middleware stores in the request context
(src/typescript/packages/http/express/src/index.ts line 141): the
payment-signature header with x-payment as fallback. The engine never
reads this context field. -/
def expressPaymentHeader (a : HTTPAdapter) : Option String :=
  jsOrStr (getHeader a "payment-signature") (getHeader a "x-payment")

/-! ## Requirement building (base-class code, modelled from the spec) -/

/-- Modelled from the spec: the money-to-base-units resolution feeding the
Requirement Builder (spec section 4.2) is not under src; a display price
such as a dollar amount resolves by exact integer arithmetic into a
6-decimal USDC base-unit string, with no floating point. -/
def moneyToBaseUnits (m : String) : String :=
  let s := if strStartsWith m "$" then m.drop 1 else m
  let intPart := s.data.takeWhile (fun c => c != '.')
  let fracPart := (s.data.dropWhile (fun c => c != '.')).drop 1
  let fracPadded := (fracPart ++ ['0', '0', '0', '0', '0', '0']).take 6
  toString (digitsToNat intPart * 1000000 + digitsToNat fracPadded)

/-- Modelled from the spec: the USDC asset address table of the paywall
chain config (part_002 getChainConfig), used when a route gives a plain
money price. -/
def usdcAddressFor (network : String) : String :=
  if network == "base" then "0x833589fCD6eDb6E08f4c7C32D4f71b54bdA02913"
  else if network == "base-sepolia" then "0x036CbD53842c5426634e7929541eC2318f3dCF7e"
  else ""

/-- Modelled from the spec: buildPaymentRequirements of x402ResourceService
is not under src; per spec section 4.2 it expands one RouteConfig into an
ordered sequence of PaymentRequirements (here one version-2 requirement),
copying scheme, network and payee and resolving the price into the asset
and base-unit amount. -/
def buildPaymentRequirements (cfg : RouteConfig) : List PaymentRequirements :=
  [{ scheme := cfg.scheme
     network := cfg.network
     asset := match cfg.price with
       | Price.money _ => usdcAddressFor cfg.network
       | Price.assetAmount a _ => a
     amount := match cfg.price with
       | Price.money m => moneyToBaseUnits m
       | Price.assetAmount _ amt => amt
     payTo := cfg.payTo
     maxTimeoutSeconds := cfg.maxTimeoutSeconds.getD 60
     extra := [] }]

/-- Setting of a key in an extra map, as the JS property assignment does. -/
def setKey (l : List (String × String)) (k v : String) : List (String × String) :=
  (k, v) :: l.filter (fun kv => kv.1 != k)

/-- Attachment of the resource url to a requirement, as the forEach loop
of processHTTPRequest does for discovery. -/
def attachResourceUrl (url : String) (r : PaymentRequirements) : PaymentRequirements :=
  { r with extra := setKey r.extra "resourceUrl" url }

/-- Modelled from the spec: createPaymentRequiredResponse of
x402ResourceService is not under src; per spec section 3 it assembles the
full negotiation response from the requirements, the resource info, an
optional error reason and the route extensions. -/
def mkPaymentRequired (accepts : List PaymentRequirements) (info : ResourceInfo)
    (err : Option String) (ext : Option (List (String × String))) : PaymentRequired :=
  { x402Version := 2, error := err, resource := some info, accepts := accepts, extensions := ext }

/-- Modelled from the spec: findMatchingRequirements of x402ResourceService
is not under src; per spec section 4.4 step 5 it selects the first entry in
accepts whose scheme and network both equal those of the payload. -/
def reqMatchesPayload (r : PaymentRequirements) (p : PaymentPayload) : Bool :=
  r.scheme == p.scheme && r.network == p.network

/-- Modelled from the spec: first-match selection over accepts. -/
def findMatchingRequirements (accepts : List PaymentRequirements) (p : PaymentPayload) :
    Option PaymentRequirements :=
  accepts.find? (fun r => reqMatchesPayload r p)

/-! ## Response construction (part_003 lines 332-398) -/

/-- Model of isWebBrowser: the accept header contains the HTML media type
and the user agent contains the browser marker token. -/
def isWebBrowser (a : HTTPAdapter) : Bool :=
  jsIncludes a.accept "text/html" && jsIncludes a.userAgent "Mozilla"

/-- Model of generatePaywallHTML: a custom template wins; otherwise the
paywall renderer collaborator is consulted (the source resolves the
optional paywall package or falls back to inline HTML; both are outside
src and collapse into the renderer collaborator). -/
def generatePaywallHTML (C : Collab) (pr : PaymentRequired) (pc : Option PaywallConfig)
    (customHtml : Option String) : String :=
  customHtml.getD (C.paywallHtml pr pc)

/-- Model of createHTTPResponse: a browser gets status 402 with paywall
HTML; anyone else gets status 402 with a JSON content type and the
negotiation payload encoded into the PAYMENT-REQUIRED header, and no
body. -/
def createHTTPResponse (C : Collab) (pr : PaymentRequired) (isBrowser : Bool)
    (pc : Option PaywallConfig) (customHtml : Option String) : HTTPResponseInstructions :=
  if isBrowser then
    { status := 402
      headers := [("Content-Type", "text/html")]
      body := some (generatePaywallHTML C pr pc customHtml)
      isHtml := some true }
  else
    { status := 402
      headers := [("Content-Type", "application/json"),
                  ("PAYMENT-REQUIRED", C.encodePaymentRequired pr)]
      body := none
      isHtml := none }

/-- Model of createSettlementHeaders: the settlement receipt encoded into
the PAYMENT-RESPONSE header. -/
def createSettlementHeaders (C : Collab) (r : SettleResponse) : List (String × String) :=
  [("PAYMENT-RESPONSE", C.encodeSettleResponse r)]

/-! ## The request processor (processHTTPRequest, part_003 lines 151-257) -/

/-- Resource info assembled by processHTTPRequest from the adapter url and
the route configuration. -/
def resourceInfoOf (cfg : RouteConfig) (a : HTTPAdapter) : ResourceInfo :=
  { url := a.url
    description := cfg.description.getD ""
    mimeType := cfg.mimeType.getD "" }

/-- Requirements built for a route with the resource url attached to each
entry, as processHTTPRequest does before negotiation. -/
def builtAccepts (cfg : RouteConfig) (a : HTTPAdapter) : List PaymentRequirements :=
  (buildPaymentRequirements cfg).map (attachResourceUrl a.url)

/-- Negotiation response sent when no payment payload is present. -/
def awaitingPaymentRequired (cfg : RouteConfig) (a : HTTPAdapter) : PaymentRequired :=
  mkPaymentRequired (builtAccepts cfg a) (resourceInfoOf cfg a)
    (some "Payment required") cfg.extensions

/-- Negotiation response sent on a rejected payment, carrying the given
reason. -/
def errorPaymentRequired (cfg : RouteConfig) (a : HTTPAdapter) (reason : Option String) :
    PaymentRequired :=
  mkPaymentRequired (builtAccepts cfg a) (resourceInfoOf cfg a) reason cfg.extensions

/-- Model of processHTTPRequest: resolve the route (no match means no
payment required), extract the payment payload (absence or decode failure
yields the awaiting-payment 402), select the first matching requirement
(none yields the no-matching 402), verify (a thrown error or an invalid
result yields a 402 carrying the collaborator reason), and otherwise
return payment-verified with the payload and the matching requirement. -/
def processHTTPRequest (C : Collab) (routes : List CompiledRoute) (ctx : HTTPRequestContext)
    (pc : Option PaywallConfig) : HTTPProcessResult :=
  match getRouteConfig routes ctx.path ctx.method with
  | none => HTTPProcessResult.noPaymentRequired
  | some cfg =>
    match extractPayment C.decode ctx.adapter with
    | none =>
        HTTPProcessResult.paymentError (createHTTPResponse C
          (awaitingPaymentRequired cfg ctx.adapter) (isWebBrowser ctx.adapter) pc
          cfg.customPaywallHtml)
    | some payload =>
      match findMatchingRequirements (builtAccepts cfg ctx.adapter) payload with
      | none =>
          HTTPProcessResult.paymentError (createHTTPResponse C
            (errorPaymentRequired cfg ctx.adapter (some "No matching payment requirements"))
            false pc none)
      | some matching =>
        match C.verify payload matching with
        | Except.error msg =>
            HTTPProcessResult.paymentError (createHTTPResponse C
              (errorPaymentRequired cfg ctx.adapter (some msg)) false pc none)
        | Except.ok vr =>
          if vr.isValid then HTTPProcessResult.paymentVerified payload matching
          else
            HTTPProcessResult.paymentError (createHTTPResponse C
              (errorPaymentRequired cfg ctx.adapter vr.invalidReason) false pc none)

/-! ## The settlement processor (processSettlement, part_003 lines 267-284) -/

/-- Model of processSettlement, paired with the number of settle calls
made to the collaborator: a response status of 400 or above returns null
at once with zero settle calls; otherwise the collaborator is called once,
a success is encoded into settlement headers, and a thrown settlement
error is logged and re-thrown to the caller. -/
def processSettlement (C : Collab) (p : PaymentPayload) (req : PaymentRequirements)
    (responseStatus : Nat) : Except String (Option (List (String × String))) × Nat :=
  if responseStatus ≥ 400 then (Except.ok none, 0)
  else
    match C.settle p req with
    | Except.ok r => (Except.ok (some (createSettlementHeaders C r)), 1)
    | Except.error e => (Except.error e, 1)

/-! ## The express middleware dispatch (express/src/index.ts lines 148-229) -/

/-- Action the express middleware takes on each result variant. -/
inductive MiddlewareAction where
  | proceedDirect
  | respond (response : HTTPResponseInstructions)
  | proceedWithSettlement (paymentPayload : PaymentPayload)
      (paymentRequirements : PaymentRequirements)
deriving DecidableEq, Repr

/-- Model of the middleware switch: no-payment-required proceeds directly
to the route handler with no further action; payment-error sends the 402
response; payment-verified proceeds but wraps the response for later
settlement. -/
def middlewareDispatch : HTTPProcessResult → MiddlewareAction
  | HTTPProcessResult.noPaymentRequired => MiddlewareAction.proceedDirect
  | HTTPProcessResult.paymentError resp => MiddlewareAction.respond resp
  | HTTPProcessResult.paymentVerified p r => MiddlewareAction.proceedWithSettlement p r

/-! ## The paywall builder (paywall/src builder, PaywallBuilder.build) -/

/-- Network-specific paywall handler, from the PaywallNetworkHandler type. -/
structure PaywallNetworkHandler where
  supports : PaymentRequirements → Bool
  generateHtml : PaymentRequirements → PaymentRequired → PaywallConfig → String

/-- Merge of the builder configuration with the runtime configuration,
runtime fields taking precedence, as the JS object spread does. -/
def mergeConfig (a b : PaywallConfig) : PaywallConfig :=
  { cdpClientKey := b.cdpClientKey <|> a.cdpClientKey
    appName := b.appName <|> a.appName
    appLogo := b.appLogo <|> a.appLogo
    sessionTokenEndpoint := b.sessionTokenEndpoint <|> a.sessionTokenEndpoint
    currentUrl := b.currentUrl <|> a.currentUrl
    testnet := b.testnet <|> a.testnet }

/-- First-match selection of the builder: iterate accepts in order and,
for each requirement, find the first registered handler supporting it. -/
def firstHandlerChoice (handlers : List PaywallNetworkHandler) :
    List PaymentRequirements → Option (PaymentRequirements × PaywallNetworkHandler)
  | [] => none
  | r :: rest =>
    match handlers.find? (fun h => h.supports r) with
    | some h => some (r, h)
    | none => firstHandlerChoice handlers rest

/-- Model of the generateHtml closure returned by PaywallBuilder.build:
with registered handlers, first-match selection renders the page and
iteration stops; with no handlers, or when no handler supports any
requirement, the built-in default renderer is used. The default renderer
(getPaywallHtml over the bundled template) is passed in as a function. -/
def buildGenerateHtml (handlers : List PaywallNetworkHandler) (builderConfig : PaywallConfig)
    (defaultHtml : PaymentRequired → PaywallConfig → String) (pr : PaymentRequired)
    (runtimeConfig : Option PaywallConfig) : String :=
  let finalConfig := mergeConfig builderConfig (runtimeConfig.getD {})
  if handlers.length > 0 then
    match firstHandlerChoice handlers pr.accepts with
    | some rh => rh.2.generateHtml rh.1 pr finalConfig
    | none => defaultHtml pr finalConfig
  else defaultHtml pr finalConfig

/-- Legacy version-1 network names of the EVM family, from the core v1
types (EVM_NETWORKS). -/
def EVM_NETWORKS : List String :=
  ["abstract", "abstract-testnet", "base-sepolia", "base", "avalanche-fuji", "avalanche",
   "iotex", "sei", "sei-testnet", "polygon", "polygon-amoy", "peaq"]

/-- Model of the supports method of the EVM paywall handler
(paywall/src/evm/index.ts): version 2 accepts CAIP-2 eip155 networks,
version 1 accepts the legacy EVM network names. -/
def evmPaywallSupports (x402Version : Nat) (r : PaymentRequirements) : Bool :=
  if x402Version == 2 then strStartsWith r.network "eip155:"
  else if x402Version == 1 then EVM_NETWORKS.contains r.network
  else false

/-- Model of the supports method of the SVM paywall handler (part_002):
CAIP-2 solana networks or the legacy Solana network names. -/
def svmPaywallSupports (r : PaymentRequirements) : Bool :=
  strStartsWith r.network "solana:" || ["solana", "solana-devnet"].contains r.network

/-! ## Concrete fixtures used by witnesses and counterexamples -/

/-- Route configured like end-to-end scenario B of the spec. -/
def cfg0 : RouteConfig :=
  { scheme := "exact", payTo := "0xabc", price := Price.money "$0.10",
    network := "base-sepolia", maxTimeoutSeconds := some 60 }

/-- Compiled route table protecting the data endpoint. -/
def routes0 : List CompiledRoute :=
  compileRoutes [("/api/data", cfg0)]

/-- Payload whose scheme and network match the configured route. -/
def payload0 : PaymentPayload :=
  { x402Version := 2, scheme := "exact", network := "base-sepolia", payloadData := "sig" }

/-- Settlement receipt fixture. -/
def settle0 : SettleResponse :=
  { success := true, transaction := "0xtx", network := "base-sepolia" }

/-- Collaborators that decode one fixed header value, verify positively
and settle positively. -/
def collab0 : Collab :=
  { decode := fun s => if s == "HDR" then some payload0 else none
    verify := fun _ _ => Except.ok { isValid := true }
    settle := fun _ _ => Except.ok settle0
    encodePaymentRequired := fun _ => "ENC"
    encodeSettleResponse := fun _ => "SENC"
    paywallHtml := fun _ _ => "HTML" }

/-- Adapter presenting a decodable payment-signature header. -/
def adapter0 : HTTPAdapter :=
  { headers := [("payment-signature", "HDR")], url := "http://h/api/data",
    accept := "", userAgent := "" }

/-- Request context hitting the protected route with payment. -/
def ctx0 : HTTPRequestContext :=
  { adapter := adapter0, path := "/api/data", method := "GET" }

/-- Requirement the engine builds for cfg0 under adapter0 (and any adapter
with the same url), resource url attached. -/
def req0 : PaymentRequirements :=
  { scheme := "exact", network := "base-sepolia",
    asset := "0x036CbD53842c5426634e7929541eC2318f3dCF7e", amount := "100000",
    payTo := "0xabc", maxTimeoutSeconds := 60,
    extra := [("resourceUrl", "http://h/api/data")] }

/-- Collaborators whose settlement call throws. -/
def errCollab2 : Collab :=
  { collab0 with settle := fun _ _ => Except.error "boom" }

/-- Request context for an unconfigured path. -/
def ctx3 : HTTPRequestContext :=
  { adapter := adapter0, path := "/nothing", method := "GET" }

/-- Adapter presenting a payment-signature header (mixed spelling) whose
value does not decode. -/
def adapter4 : HTTPAdapter :=
  { headers := [("Payment-Signature", "BAD")], url := "http://h/api/data",
    accept := "", userAgent := "" }

/-- Request context carrying the malformed header. -/
def ctx4 : HTTPRequestContext :=
  { adapter := adapter4, path := "/api/data", method := "GET" }

/-- Collaborators whose decode always fails. -/
def collab4 : Collab :=
  { collab0 with decode := fun _ => none }

/-- Adapter presenting the payment only under the legacy x-payment name. -/
def adapter5 : HTTPAdapter :=
  { headers := [("x-payment", "GOODHDR")], url := "http://h/api/data",
    accept := "", userAgent := "" }

/-- Request context carrying only the legacy header. -/
def ctx5 : HTTPRequestContext :=
  { adapter := adapter5, path := "/api/data", method := "GET" }

/-- Collaborators that decode the legacy header value. -/
def collab5 : Collab :=
  { collab0 with decode := fun s => if s == "GOODHDR" then some payload0 else none }

/-- Non-browser adapter with no payment header at all. -/
def adapter6 : HTTPAdapter :=
  { headers := [], url := "http://h/api/data", accept := "application/json",
    userAgent := "curl" }

/-- Request context of end-to-end scenario B: configured route, no payment
header, non-browser caller. -/
def ctx6 : HTTPRequestContext :=
  { adapter := adapter6, path := "/api/data", method := "GET" }

/-- Response instructions the engine produces for scenario B. -/
def resp6 : HTTPResponseInstructions :=
  createHTTPResponse collab0 (awaitingPaymentRequired cfg0 adapter6) false none none

/-- Route configurations distinguishing the two compiled routes of the
lookup witness. -/
def cfgA8 : RouteConfig :=
  { scheme := "exact", payTo := "a", price := Price.money "$1", network := "base" }

/-- Second route configuration of the lookup witness. -/
def cfgB8 : RouteConfig :=
  { scheme := "exact", payTo := "b", price := Price.money "$2", network := "base" }

/-- Route table with a verb-restricted parameterized route before a
catch-all. -/
def routes8 : List CompiledRoute :=
  compileRoutes [("GET /api/[id]", cfgA8), ("*", cfgB8)]

/-- EVM paywall handler fixture with a recognizable output. -/
def evmHandler9 : PaywallNetworkHandler :=
  { supports := fun r => evmPaywallSupports 2 r, generateHtml := fun _ _ _ => "EVM" }

/-- SVM paywall handler fixture with a recognizable output. -/
def solHandler9 : PaywallNetworkHandler :=
  { supports := svmPaywallSupports, generateHtml := fun _ _ _ => "SOL" }

/-- Solana requirement fixture. -/
def solReq9 : PaymentRequirements :=
  { scheme := "exact", network := "solana:devnet", asset := "USDC", amount := "100000",
    payTo := "w", maxTimeoutSeconds := 60 }

/-- EVM requirement fixture. -/
def evmReq9 : PaymentRequirements :=
  { scheme := "exact", network := "eip155:84532", asset := "USDC", amount := "100000",
    payTo := "w", maxTimeoutSeconds := 60 }

/-- Negotiation response whose accepts order prefers Solana. -/
def pr9 : PaymentRequired :=
  { x402Version := 2, error := none, resource := none, accepts := [solReq9, evmReq9] }

/-- Built-in default renderer fixture. -/
def default9 : PaymentRequired → PaywallConfig → String := fun _ _ => "DEFAULT"

/-- Adapter of the lookup and no-route witnesses stripped of its payment
header by the middleware-independent strip operation. -/
def stripAdapter (a : HTTPAdapter) : HTTPAdapter :=
  { a with headers := a.headers.filter (fun kv => !(lowerStr kv.1 == "payment-signature")) }

/-- Request context with every payment-signature header (any spelling)
removed, leaving path, method, url, accept and user agent unchanged. -/
def stripPaymentSig (ctx : HTTPRequestContext) : HTTPRequestContext :=
  { ctx with adapter := stripAdapter ctx.adapter }

/-! ## Helper lemmas -/

/-- Characterization of find?: it returns exactly the first element
satisfying the predicate. -/
theorem findFirstIff {α : Type} (p : α → Bool) (l : List α) (a : α) :
    l.find? p = some a ↔
      ∃ i, ∃ hi : i < l.length, l.get ⟨i, hi⟩ = a ∧ p a = true ∧
        ∀ j, ∀ hj : j < i, p (l.get ⟨j, Nat.lt_trans hj hi⟩) = false := by
  induction l with
  | nil => simp [List.find?]
  | cons b l ih =>
    by_cases hb : p b = true
    · rw [List.find?_cons_of_pos _ hb]
      constructor
      · intro h
        have hba : b = a := by injection h
        subst hba
        exact ⟨0, Nat.succ_pos _, rfl, hb, fun j hj => absurd hj (Nat.not_lt_zero j)⟩
      · rintro ⟨i, hi, hget, hpa, hprev⟩
        cases i with
        | zero => simp at hget; rw [hget]
        | succ n =>
          have h0 := hprev 0 (Nat.succ_pos n)
          simp at h0
          rw [h0] at hb
          exact absurd hb (by simp)
    · rw [List.find?_cons_of_neg _ hb, ih]
      constructor
      · rintro ⟨i, hi, hget, hpa, hprev⟩
        refine ⟨i + 1, Nat.succ_lt_succ hi, by simpa using hget, hpa, ?_⟩
        intro j hj
        cases j with
        | zero => simpa using (Bool.eq_false_iff.mpr hb)
        | succ k => simpa using hprev k (Nat.lt_of_succ_lt_succ hj)
      · rintro ⟨i, hi, hget, hpa, hprev⟩
        cases i with
        | zero =>
          simp at hget
          rw [hget] at hb
          exact absurd hpa hb
        | succ n =>
          refine ⟨n, Nat.lt_of_succ_lt_succ hi, by simpa using hget, hpa, ?_⟩
          intro j hj
          simpa using hprev (j + 1) (Nat.succ_lt_succ hj)

/-- Filtering away every element satisfying a predicate leaves nothing for
find? to find. -/
theorem find?_filter_neg {α : Type} (p : α → Bool) (l : List α) :
    (l.filter (fun x => !p x)).find? p = none := by
  induction l with
  | nil => rfl
  | cons a l ih =>
    by_cases h : p a = true
    · simp [List.filter_cons, h, ih]
    · have h2 : p a = false := Bool.eq_false_iff.mpr h
      simp [List.filter_cons, h2, List.find?_cons, ih]

/-- A stripped adapter answers no payment-signature lookup under any
spelling of the name. -/
theorem getHeader_strip (a : HTTPAdapter) (n : String)
    (hn : lowerStr n = "payment-signature") : getHeader (stripAdapter a) n = none := by
  unfold getHeader stripAdapter
  rw [hn]
  rw [find?_filter_neg (fun kv => lowerStr kv.1 == "payment-signature") a.headers]
  rfl

/-- A stripped adapter yields no payment payload whatever the decoder. -/
theorem extractPayment_strip (d : String → Option PaymentPayload) (a : HTTPAdapter) :
    extractPayment d (stripAdapter a) = none := by
  unfold extractPayment paymentSigHeader
  rw [getHeader_strip a "payment-signature" (by rfl),
    getHeader_strip a "PAYMENT-SIGNATURE" (by rfl)]
  rfl

/-- Equality tests under a lawful BEq are symmetric. -/
theorem charBeqComm (a b : Char) : (a == b) = (b == a) := by
  by_cases h : a = b
  · rw [h]
  · have h2 : b ≠ a := fun e => h e.symm
    simp [h, h2]

/-- A pattern free of star, bracket and backslash compiles to its literal
token sequence. -/
theorem compileF_lits (cs : List Char) (h : ∀ c ∈ cs, c ≠ '*' ∧ c ≠ '[' ∧ c ≠ '\\') :
    compileF (cs.length + 1) cs = some (cs.map RTok.lit) := by
  induction cs with
  | nil => rfl
  | cons c rest ih =>
    have hc := h c (by simp)
    have hr := fun x hx => h x (List.mem_cons_of_mem c hx)
    show compileF (rest.length + 1 + 1) (c :: rest) = _
    simp only [compileF]
    rw [if_neg hc.1, if_neg hc.2.1, if_neg hc.2.2, ih hr]
    rfl

/-- A pattern free of star, bracket and backslash compiles to its literal
token sequence. -/
theorem compilePath_lits (cs : List Char) (h : ∀ c ∈ cs, c ≠ '*' ∧ c ≠ '[' ∧ c ≠ '\\') :
    compilePath cs = some (cs.map RTok.lit) := by
  unfold compilePath
  exact compileF_lits cs h

/-- A literal token sequence matches exactly the case-insensitively equal
strings. -/
theorem tokMatch_lits (cs : List Char) :
    ∀ ds : List Char,
      tokMatch (cs.map RTok.lit) ds = (ds.map Char.toLower == cs.map Char.toLower) := by
  induction cs with
  | nil =>
    intro ds
    cases ds with
    | nil => rfl
    | cons d ds => rfl
  | cons c cs ih =>
    intro ds
    cases ds with
    | nil => rfl
    | cons d ds =>
      show ((c.toLower == d.toLower) && tokMatch (cs.map RTok.lit) ds) =
        (List.map Char.toLower (d :: ds) == List.map Char.toLower (c :: cs))
      rw [ih ds]
      show _ = ((d.toLower == c.toLower) && (ds.map Char.toLower == cs.map Char.toLower))
      rw [charBeqComm]

/-- The whole string with an empty remainder is one of the splits. -/
theorem splits_last (s : List Char) : (s, ([] : List Char)) ∈ splits s := by
  induction s with
  | nil => simp [splits]
  | cons c cs ih =>
    simp only [splits, List.mem_cons, List.mem_map]
    exact Or.inr ⟨(cs, []), ih, rfl⟩

/-- A lone star token matches any run of dot characters. -/
theorem tokMatch_star_all (s : List Char) (h : ∀ c ∈ s, isDot c = true) :
    tokMatch [RTok.star] s = true := by
  show (splits s).any (fun p => p.1.all isDot && tokMatch [] p.2) = true
  refine List.any_eq_true.mpr ⟨(s, []), splits_last s, ?_⟩
  have h1 : s.all isDot = true := List.all_eq_true.mpr h
  simp [h1, tokMatch]

/-- A lone param token matches any nonempty run of non-slash characters. -/
theorem tokMatch_param_all (s : List Char) (hne : s ≠ [])
    (h : ∀ c ∈ s, c ≠ '/') : tokMatch [RTok.param] s = true := by
  show (splits s).any
      (fun p => (!p.1.isEmpty) && p.1.all (fun c => c != '/') && tokMatch [] p.2) = true
  refine List.any_eq_true.mpr ⟨(s, []), splits_last s, ?_⟩
  have h1 : s.all (fun c => c != '/') = true :=
    List.all_eq_true.mpr (fun c hc => by simpa using h c hc)
  have h2 : !s.isEmpty = true := by
    cases s with
    | nil => exact absurd rfl hne
    | cons a l => rfl
  simp [h1, h2, tokMatch]
  exact hne

/-- The first-match scan of the paywall builder lands on the requirement
at the first index any handler supports, rendered by the earliest such
handler. -/
theorem firstHandlerChoice_at (handlers : List PaywallNetworkHandler) :
    ∀ (accepts : List PaymentRequirements) (i : Nat) (hi : i < accepts.length)
      (j : Nat) (hj : j < handlers.length),
      (handlers.get ⟨j, hj⟩).supports (accepts.get ⟨i, hi⟩) = true →
      (∀ i2, ∀ hi2 : i2 < i, ∀ h ∈ handlers,
        h.supports (accepts.get ⟨i2, Nat.lt_trans hi2 hi⟩) = false) →
      (∀ j2, ∀ hj2 : j2 < j,
        (handlers.get ⟨j2, Nat.lt_trans hj2 hj⟩).supports (accepts.get ⟨i, hi⟩) = false) →
      firstHandlerChoice handlers accepts =
        some (accepts.get ⟨i, hi⟩, handlers.get ⟨j, hj⟩) := by
  intro accepts
  induction accepts with
  | nil => intro i hi; exact absurd hi (by simp)
  | cons r rest ih =>
    intro i hi j hj hsupp hpi hpj
    cases i with
    | zero =>
      have hfind : handlers.find? (fun h => h.supports r) = some (handlers.get ⟨j, hj⟩) := by
        refine (findFirstIff _ handlers _).mpr ⟨j, hj, rfl, ?_, ?_⟩
        · simpa using hsupp
        · intro j2 hj2
          simpa using hpj j2 hj2
      show firstHandlerChoice handlers (r :: rest) = _
      unfold firstHandlerChoice
      rw [hfind]
      rfl
    | succ n =>
      have hnone : handlers.find? (fun h => h.supports r) = none := by
        apply List.find?_eq_none.mpr
        intro h hmem
        have := hpi 0 (Nat.succ_pos n) h hmem
        simpa using this
      show firstHandlerChoice handlers (r :: rest) = _
      unfold firstHandlerChoice
      rw [hnone]
      exact ih n (Nat.lt_of_succ_lt_succ hi) j hj (by simpa using hsupp)
        (fun i2 hi2 h hmem => by simpa using hpi (i2 + 1) (Nat.succ_lt_succ hi2) h hmem)
        (fun j2 hj2 => by simpa using hpj j2 hj2)

/-- When no handler supports any requirement the scan comes up empty. -/
theorem firstHandlerChoice_none (handlers : List PaywallNetworkHandler)
    (accepts : List PaymentRequirements)
    (h : ∀ r ∈ accepts, ∀ hd ∈ handlers, hd.supports r = false) :
    firstHandlerChoice handlers accepts = none := by
  induction accepts with
  | nil => rfl
  | cons r rest ih =>
    have hnone : handlers.find? (fun hd => hd.supports r) = none := by
      apply List.find?_eq_none.mpr
      intro hd hmem
      simpa using h r (by simp) hd hmem
    show firstHandlerChoice handlers (r :: rest) = none
    unfold firstHandlerChoice
    rw [hnone]
    exact ih (fun r2 hr2 hd hmem => h r2 (List.mem_cons_of_mem r hr2) hd hmem)

/-! ## Claim theorems -/

/-- C2: processSettlement returns null with zero settle calls for every
response status of 400 or above; below 400 the settlement collaborator is
invoked exactly once, its success is encoded into the PAYMENT-RESPONSE
header, and its thrown failure propagates to the caller instead of being
swallowed. -/
theorem c2_settlement_guard (C : Collab) (p : PaymentPayload) (req : PaymentRequirements)
    (s : Nat) :
    (s ≥ 400 → processSettlement C p req s = (Except.ok none, 0)) ∧
    (s < 400 →
      (processSettlement C p req s).2 = 1 ∧
      (∀ e, C.settle p req = Except.error e →
        (processSettlement C p req s).1 = Except.error e) ∧
      (∀ r, C.settle p req = Except.ok r →
        (processSettlement C p req s).1 = Except.ok (some (createSettlementHeaders C r)))) := by
  constructor
  · intro h
    simp [processSettlement, h]
  · intro h
    have hn : ¬ s ≥ 400 := by omega
    refine ⟨?_, ?_, ?_⟩
    · cases hs : C.settle p req <;> simp [processSettlement, hn, hs]
    · intro e he
      simp [processSettlement, hn, he]
    · intro r hr
      simp [processSettlement, hn, hr]

/-- Witness for C2 at the concrete statuses 400 and 200, with a settling
and a throwing collaborator. -/
theorem c2_settlement_guard_witness :
    processSettlement collab0 payload0 req0 400 = (Except.ok none, 0) ∧
    (processSettlement errCollab2 payload0 req0 200).2 = 1 ∧
    (processSettlement errCollab2 payload0 req0 200).1 = Except.error "boom" ∧
    (processSettlement collab0 payload0 req0 200).1 =
      Except.ok (some (createSettlementHeaders collab0 settle0)) :=
  ⟨(c2_settlement_guard collab0 payload0 req0 400).1 (by omega),
   ((c2_settlement_guard errCollab2 payload0 req0 200).2 (by omega)).1,
   ((c2_settlement_guard errCollab2 payload0 req0 200).2 (by omega)).2.1 "boom" rfl,
   ((c2_settlement_guard collab0 payload0 req0 200).2 (by omega)).2.2 settle0 rfl⟩

/-- C3: a request matching no compiled route yields the
no-payment-required result, and that is the only result variant the
express middleware lets proceed to the protected handler with no further
action. -/
theorem c3_unprotected_proceeds (C : Collab) (routes : List CompiledRoute)
    (ctx : HTTPRequestContext) (pc : Option PaywallConfig)
    (h : getRouteConfig routes ctx.path ctx.method = none) :
    processHTTPRequest C routes ctx pc = HTTPProcessResult.noPaymentRequired ∧
    (∀ r : HTTPProcessResult,
      middlewareDispatch r = MiddlewareAction.proceedDirect ↔
        r = HTTPProcessResult.noPaymentRequired) := by
  constructor
  · simp [processHTTPRequest, h]
  · intro r
    cases r <;> simp [middlewareDispatch]

/-- Witness for C3 at a concrete unconfigured path. -/
theorem c3_unprotected_proceeds_witness :
    processHTTPRequest collab0 routes0 ctx3 none = HTTPProcessResult.noPaymentRequired ∧
    (middlewareDispatch HTTPProcessResult.noPaymentRequired =
        MiddlewareAction.proceedDirect ↔
      HTTPProcessResult.noPaymentRequired = HTTPProcessResult.noPaymentRequired) :=
  ⟨(c3_unprotected_proceeds collab0 routes0 ctx3 none (by decide)).1,
   (c3_unprotected_proceeds collab0 routes0 ctx3 none (by decide)).2
     HTTPProcessResult.noPaymentRequired⟩

/-- C10: normalizePath is total, and on a URL-decoding failure it returns
the raw input path entirely unchanged, with no query stripping, slash
collapsing, backslash conversion or trailing-slash stripping applied. -/
theorem c10_normalize_total_fallback (path : String)
    (h : decodeChars (stripQueryFrag path.data) = none) : normalizePath path = path := by
  simp [normalizePath, h]

/-- Witness for C10 at a path whose percent escape is malformed: the query
is not even stripped. -/
theorem c10_normalize_total_fallback_witness :
    decodeChars (stripQueryFrag "/a%?x=1".data) = none ∧
    normalizePath "/a%?x=1" = "/a%?x=1" :=
  ⟨by decide, c10_normalize_total_fallback "/a%?x=1" (by decide)⟩

/-- Engine behavior when a route is matched and no payload is available,
shared by several results: the awaiting-payment 402 is produced. -/
theorem processHTTPRequest_no_payload (C : Collab) (routes : List CompiledRoute)
    (ctx : HTTPRequestContext) (pc : Option PaywallConfig) (cfg : RouteConfig)
    (hroute : getRouteConfig routes ctx.path ctx.method = some cfg)
    (hdec : extractPayment C.decode ctx.adapter = none) :
    processHTTPRequest C routes ctx pc = HTTPProcessResult.paymentError
      (createHTTPResponse C (awaitingPaymentRequired cfg ctx.adapter)
        (isWebBrowser ctx.adapter) pc cfg.customPaywallHtml) := by
  simp [processHTTPRequest, hroute, hdec]

/-- C7 counterexample: the backslash is not in the escape set of the
compiler, so the compiled form of a backslash-d pattern matches a digit
rather than the literal characters, and the star becomes a JS dot-run
which cannot cross a newline; the claim that star matches any run of
characters and that all non-wildcard characters match literally fails. -/
theorem c7_route_pattern_counterexample :
    pathPatternTest "/a\\d" "/a7" = true ∧
    pathPatternTest "/a\\d" "/a\\d" = false ∧
    pathPatternTest "/a/*" "/a/b\nc" = false :=
  ⟨by decide, by decide, by decide⟩

/-- C7 amended: compilation yields an anchored case-insensitive matcher
in which star matches any run of non-line-terminator characters, a
bracketed name matches one nonempty slash-free segment, and every
pattern character other than star, the brackets and the backslash
matches literally up to case; in particular the star pattern matches the
deep path and the bracketed-id pattern matches a numeric segment, with
no regex-unsafe behavior on the escaped metacharacter set. -/
theorem c7_route_pattern_amended (cs path : List Char)
    (hlit : ∀ c ∈ cs, c ≠ '*' ∧ c ≠ '[' ∧ c ≠ '\\') :
    compilePath cs = some (cs.map RTok.lit) ∧
    tokMatch (cs.map RTok.lit) path = (path.map Char.toLower == cs.map Char.toLower) ∧
    pathPatternTest "/a/*" "/a/b/c" = true ∧
    pathPatternTest "/a/[id]" "/a/123" = true ∧
    (∀ s : List Char, (∀ c ∈ s, isDot c = true) → tokMatch [RTok.star] s = true) ∧
    (∀ s : List Char, s ≠ [] → (∀ c ∈ s, c ≠ '/') → tokMatch [RTok.param] s = true) :=
  ⟨compilePath_lits cs hlit, tokMatch_lits cs path, by decide, by decide,
   fun s h => tokMatch_star_all s h,
   fun s hne h => tokMatch_param_all s hne h⟩

/-- Witness for C7 at a literal pattern built from characters of the
escaped metacharacter set, matched case-insensitively. -/
theorem c7_route_pattern_amended_witness :
    compilePath "/x(y).z".data = some ("/x(y).z".data.map RTok.lit) ∧
    tokMatch ("/x(y).z".data.map RTok.lit) "/X(Y).Z".data =
      ("/X(Y).Z".data.map Char.toLower == "/x(y).z".data.map Char.toLower) :=
  ⟨(c7_route_pattern_amended "/x(y).z".data "/X(Y).Z".data (by decide)).1,
   (c7_route_pattern_amended "/x(y).z".data "/X(Y).Z".data (by decide)).2.1⟩

/-- C8: route lookup returns the configuration of the first compiled
route, in configuration order, whose verb is the wildcard or equals the
uppercased request method and whose pattern accepts the normalized
path. -/
theorem c8_route_lookup_first_match (routes : List CompiledRoute) (path method : String)
    (cfg : RouteConfig) :
    getRouteConfig routes path method = some cfg ↔
      ∃ i, ∃ hi : i < routes.length,
        (routes.get ⟨i, hi⟩).config = cfg ∧
        routeMatches (routes.get ⟨i, hi⟩) (normalizePath path) method = true ∧
        ∀ j, ∀ hj : j < i,
          routeMatches (routes.get ⟨j, Nat.lt_trans hj hi⟩) (normalizePath path) method
            = false := by
  unfold getRouteConfig
  constructor
  · intro h
    obtain ⟨r, hr, hcfg⟩ := Option.map_eq_some'.mp h
    obtain ⟨i, hi, hget, hp, hprev⟩ :=
      (findFirstIff (fun r => routeMatches r (normalizePath path) method) routes r).mp hr
    refine ⟨i, hi, ?_, ?_, hprev⟩
    · rw [hget, hcfg]
    · rw [hget]
      exact hp
  · rintro ⟨i, hi, hcfg, hmatch, hprev⟩
    have hr : routes.find? (fun r => routeMatches r (normalizePath path) method) =
        some (routes.get ⟨i, hi⟩) :=
      (findFirstIff _ routes _).mpr ⟨i, hi, rfl, hmatch, hprev⟩
    rw [hr]
    simpa using hcfg

/-- Witness for C8: a percent-encoded path with a trailing slash and a
lowercase method selects the verb-restricted parameterized route. -/
theorem c8_route_lookup_first_match_witness :
    getRouteConfig routes8 "/api/%37/" "get" = some cfgA8 :=
  (c8_route_lookup_first_match routes8 "/api/%37/" "get" cfgA8).mpr
    ⟨0, by decide, by decide, by decide, fun j hj => absurd hj (Nat.not_lt_zero j)⟩

/-- C9: the paywall builder scans accepts in order and, for each
requirement, the registered handlers in registration order, renders with
the first supporting handler and stops; when no handler supports any
requirement the built-in default renderer is used instead. -/
theorem c9_paywall_first_match (handlers : List PaywallNetworkHandler) (bc : PaywallConfig)
    (defaultHtml : PaymentRequired → PaywallConfig → String) (pr : PaymentRequired)
    (rc : Option PaywallConfig) :
    (∀ i, ∀ hi : i < pr.accepts.length, ∀ j, ∀ hj : j < handlers.length,
      (handlers.get ⟨j, hj⟩).supports (pr.accepts.get ⟨i, hi⟩) = true →
      (∀ i2, ∀ hi2 : i2 < i, ∀ h ∈ handlers,
        h.supports (pr.accepts.get ⟨i2, Nat.lt_trans hi2 hi⟩) = false) →
      (∀ j2, ∀ hj2 : j2 < j,
        (handlers.get ⟨j2, Nat.lt_trans hj2 hj⟩).supports (pr.accepts.get ⟨i, hi⟩)
          = false) →
      buildGenerateHtml handlers bc defaultHtml pr rc =
        (handlers.get ⟨j, hj⟩).generateHtml (pr.accepts.get ⟨i, hi⟩) pr
          (mergeConfig bc (rc.getD {}))) ∧
    ((∀ r ∈ pr.accepts, ∀ h ∈ handlers, h.supports r = false) →
      buildGenerateHtml handlers bc defaultHtml pr rc =
        defaultHtml pr (mergeConfig bc (rc.getD {}))) := by
  constructor
  · intro i hi j hj hsupp hpi hpj
    have hpos : 0 < handlers.length := Nat.lt_of_le_of_lt (Nat.zero_le j) hj
    have hchoice := firstHandlerChoice_at handlers pr.accepts i hi j hj hsupp hpi hpj
    simp [buildGenerateHtml, hpos, hchoice]
  · intro hall
    have hchoice := firstHandlerChoice_none handlers pr.accepts hall
    by_cases hlen : handlers.length > 0
    · simp [buildGenerateHtml, hlen, hchoice]
    · simp [buildGenerateHtml, hlen]

/-- Witness for C9: with accepts preferring Solana and handlers
registered EVM first, the Solana handler renders the page; the EVM
handler rejects the Solana requirement and the SVM handler accepts it. -/
theorem c9_paywall_first_match_witness :
    buildGenerateHtml [evmHandler9, solHandler9] {} default9 pr9 none = "SOL" ∧
    evmPaywallSupports 2 solReq9 = false ∧ svmPaywallSupports solReq9 = true := by
  refine ⟨?_, by decide, by decide⟩
  have hi : 0 < pr9.accepts.length := by decide
  have hj : 1 < ([evmHandler9, solHandler9] : List PaywallNetworkHandler).length := by decide
  have hsupp : (([evmHandler9, solHandler9] : List PaywallNetworkHandler).get
      ⟨1, by decide⟩).supports (pr9.accepts.get ⟨0, by decide⟩) = true := by decide
  have hzero : (([evmHandler9, solHandler9] : List PaywallNetworkHandler).get
      ⟨0, by decide⟩).supports (pr9.accepts.get ⟨0, by decide⟩) = false := by decide
  have hpi : ∀ i2, ∀ hi2 : i2 < 0,
      ∀ h ∈ ([evmHandler9, solHandler9] : List PaywallNetworkHandler),
      h.supports (pr9.accepts.get ⟨i2, Nat.lt_trans hi2 hi⟩) = false :=
    fun i2 hi2 => absurd hi2 (Nat.not_lt_zero i2)
  have hpj : ∀ j2, ∀ hj2 : j2 < 1,
      (([evmHandler9, solHandler9] : List PaywallNetworkHandler).get
        ⟨j2, Nat.lt_trans hj2 hj⟩).supports (pr9.accepts.get ⟨0, hi⟩) = false := by
    intro j2 hj2
    cases j2 with
    | zero => exact hzero
    | succ n => exact absurd hj2 (by omega)
  have h := (c9_paywall_first_match [evmHandler9, solHandler9] {} default9 pr9 none).1
    0 hi 1 hj hsupp hpi hpj
  exact h.trans rfl

/-- C1: the engine returns payment-verified only when a payment payload
was decoded from the request, the returned requirement is the first entry
of the built accepts list agreeing with the payload on both scheme and
network, and the verification collaborator returned a valid result for
exactly that payload-requirement pair. -/
theorem c1_payment_verified_characterization (C : Collab) (routes : List CompiledRoute)
    (ctx : HTTPRequestContext) (pc : Option PaywallConfig) (p : PaymentPayload)
    (req : PaymentRequirements)
    (h : processHTTPRequest C routes ctx pc = HTTPProcessResult.paymentVerified p req) :
    extractPayment C.decode ctx.adapter = some p ∧
    ∃ cfg, getRouteConfig routes ctx.path ctx.method = some cfg ∧
      (∃ i, ∃ hi : i < (builtAccepts cfg ctx.adapter).length,
        (builtAccepts cfg ctx.adapter).get ⟨i, hi⟩ = req ∧
        reqMatchesPayload req p = true ∧
        ∀ j, ∀ hj : j < i,
          reqMatchesPayload ((builtAccepts cfg ctx.adapter).get ⟨j, Nat.lt_trans hj hi⟩) p
            = false) ∧
      (∃ vr, C.verify p req = Except.ok vr ∧ vr.isValid = true) := by
  unfold processHTTPRequest at h
  split at h
  next hroute => simp at h
  next cfg hroute =>
    split at h
    next hpay => simp at h
    next payload hpay =>
      split at h
      next hmatch => simp at h
      next matching hmatch =>
        split at h
        next msg hver => simp at h
        next vr hver =>
          split at h
          next hvalid =>
            injection h with h1 h2
            rw [h1] at hpay
            rw [h1, h2] at hmatch
            rw [h1, h2] at hver
            obtain ⟨i, hi, hget, hp, hprev⟩ :=
              (findFirstIff (fun r => reqMatchesPayload r p)
                (builtAccepts cfg ctx.adapter) req).mp hmatch
            exact ⟨hpay, cfg, hroute, ⟨i, hi, hget, hp, hprev⟩, vr, hver, hvalid⟩
          next hvalid => simp at h

/-- Witness for C1 at a concrete verified request. -/
theorem c1_payment_verified_characterization_witness :
    processHTTPRequest collab0 routes0 ctx0 none =
      HTTPProcessResult.paymentVerified payload0 req0 ∧
    (extractPayment collab0.decode ctx0.adapter = some payload0 ∧
      ∃ cfg, getRouteConfig routes0 ctx0.path ctx0.method = some cfg ∧
        (∃ i, ∃ hi : i < (builtAccepts cfg ctx0.adapter).length,
          (builtAccepts cfg ctx0.adapter).get ⟨i, hi⟩ = req0 ∧
          reqMatchesPayload req0 payload0 = true ∧
          ∀ j, ∀ hj : j < i,
            reqMatchesPayload ((builtAccepts cfg ctx0.adapter).get ⟨j, Nat.lt_trans hj hi⟩)
              payload0 = false) ∧
        (∃ vr, collab0.verify payload0 req0 = Except.ok vr ∧ vr.isValid = true)) :=
  ⟨by decide,
   c1_payment_verified_characterization collab0 routes0 ctx0 none payload0 req0 (by decide)⟩

/-- C4: a payment header that is present but fails to decode never
throws; the engine behaves exactly as if no payment header were present,
producing a 402 payment-error whose negotiation response carries the
error Payment required. -/
theorem c4_malformed_header_as_absent (C : Collab) (routes : List CompiledRoute)
    (ctx : HTTPRequestContext) (pc : Option PaywallConfig) (cfg : RouteConfig)
    (hroute : getRouteConfig routes ctx.path ctx.method = some cfg)
    (_hpresent : paymentSigHeader ctx.adapter ≠ none)
    (hdec : extractPayment C.decode ctx.adapter = none) :
    processHTTPRequest C routes ctx pc = HTTPProcessResult.paymentError
      (createHTTPResponse C (awaitingPaymentRequired cfg ctx.adapter)
        (isWebBrowser ctx.adapter) pc cfg.customPaywallHtml) ∧
    (awaitingPaymentRequired cfg ctx.adapter).error = some "Payment required" ∧
    (createHTTPResponse C (awaitingPaymentRequired cfg ctx.adapter)
      (isWebBrowser ctx.adapter) pc cfg.customPaywallHtml).status = 402 ∧
    processHTTPRequest C routes ctx pc =
      processHTTPRequest C routes (stripPaymentSig ctx) pc := by
  have hmain := processHTTPRequest_no_payload C routes ctx pc cfg hroute hdec
  have hroute2 : getRouteConfig routes (stripPaymentSig ctx).path (stripPaymentSig ctx).method
      = some cfg := hroute
  have hdec2 : extractPayment C.decode (stripPaymentSig ctx).adapter = none :=
    extractPayment_strip C.decode ctx.adapter
  have hstrip := processHTTPRequest_no_payload C routes (stripPaymentSig ctx) pc cfg
    hroute2 hdec2
  refine ⟨hmain, rfl, ?_, ?_⟩
  · cases hb : isWebBrowser ctx.adapter <;> simp [createHTTPResponse, hb]
  · rw [hmain, hstrip]
    rfl

/-- Witness for C4 at a mixed-case header whose value never decodes. -/
theorem c4_malformed_header_as_absent_witness :
    paymentSigHeader adapter4 ≠ none ∧
    processHTTPRequest collab4 routes0 ctx4 none = HTTPProcessResult.paymentError
      (createHTTPResponse collab4 (awaitingPaymentRequired cfg0 adapter4)
        (isWebBrowser adapter4) none cfg0.customPaywallHtml) ∧
    processHTTPRequest collab4 routes0 ctx4 none =
      processHTTPRequest collab4 routes0 (stripPaymentSig ctx4) none :=
  ⟨by decide,
   (c4_malformed_header_as_absent collab4 routes0 ctx4 none cfg0 (by decide) (by decide)
     (by decide)).1,
   (c4_malformed_header_as_absent collab4 routes0 ctx4 none cfg0 (by decide) (by decide)
     (by decide)).2.2.2⟩

/-- C5: evaluation at the failing input. The express middleware collects
the payment header from the legacy x-payment name into the request
context, and the value decodes to a well-formed payload, yet the engine
reads only the payment-signature header, treats the request as carrying
no payment, and answers the awaiting-payment 402. -/
theorem c5_xpayment_ignored :
    expressPaymentHeader adapter5 = some "GOODHDR" ∧
    collab5.decode "GOODHDR" = some payload0 ∧
    getRouteConfig routes0 ctx5.path ctx5.method = some cfg0 ∧
    extractPayment collab5.decode adapter5 = none ∧
    processHTTPRequest collab5 routes0 ctx5 none = HTTPProcessResult.paymentError
      (createHTTPResponse collab5 (awaitingPaymentRequired cfg0 adapter5) false none none) :=
  ⟨by decide, by decide, by decide, by decide, by decide⟩

/-- C6 counterexample: at the concrete scenario the non-browser
payment-error response carries no body at all, refuting the claimed JSON
negotiation body; the negotiation payload travels in the
PAYMENT-REQUIRED header instead. -/
theorem c6_no_body_counterexample :
    processHTTPRequest collab0 routes0 ctx6 none = HTTPProcessResult.paymentError resp6 ∧
    resp6.status = 402 ∧ resp6.body = none :=
  ⟨by decide, by decide, by decide⟩

/-- C6 amended: for a protected route priced at ten cents on base-sepolia
and a non-browser caller without payment, the response has status 402, a
JSON content type, an empty body, and a PAYMENT-REQUIRED header encoding
the negotiation response, whose single accepts entry has network
base-sepolia and amount 100000. -/
theorem c6_negotiation_402 (C : Collab) (routes : List CompiledRoute)
    (ctx : HTTPRequestContext) (pc : Option PaywallConfig) (cfg : RouteConfig)
    (hroute : getRouteConfig routes ctx.path ctx.method = some cfg)
    (hprice : cfg.price = Price.money "$0.10")
    (hnet : cfg.network = "base-sepolia")
    (hnopay : extractPayment C.decode ctx.adapter = none)
    (hbrowser : isWebBrowser ctx.adapter = false) :
    processHTTPRequest C routes ctx pc = HTTPProcessResult.paymentError
      { status := 402
        headers := [("Content-Type", "application/json"),
          ("PAYMENT-REQUIRED",
            C.encodePaymentRequired (awaitingPaymentRequired cfg ctx.adapter))]
        body := none
        isHtml := none } ∧
    (awaitingPaymentRequired cfg ctx.adapter).error = some "Payment required" ∧
    (∃ r0, (awaitingPaymentRequired cfg ctx.adapter).accepts = [r0] ∧
      r0.network = "base-sepolia" ∧ r0.amount = "100000") := by
  refine ⟨?_, rfl, ?_⟩
  · have h := processHTTPRequest_no_payload C routes ctx pc cfg hroute hnopay
    rw [h, hbrowser]
    simp [createHTTPResponse]
  · simp only [awaitingPaymentRequired, mkPaymentRequired, builtAccepts,
      buildPaymentRequirements, List.map_cons, List.map_nil]
    refine ⟨_, rfl, ?_, ?_⟩
    · simp [attachResourceUrl, hnet]
    · simp only [attachResourceUrl, hprice]
      decide

/-- Witness for C6 at end-to-end scenario B: the configured data route,
no payment header, non-browser caller. -/
theorem c6_negotiation_402_witness :
    processHTTPRequest collab0 routes0 ctx6 none = HTTPProcessResult.paymentError
      { status := 402
        headers := [("Content-Type", "application/json"),
          ("PAYMENT-REQUIRED",
            collab0.encodePaymentRequired (awaitingPaymentRequired cfg0 ctx6.adapter))]
        body := none
        isHtml := none } ∧
    (awaitingPaymentRequired cfg0 ctx6.adapter).error = some "Payment required" ∧
    (∃ r0, (awaitingPaymentRequired cfg0 ctx6.adapter).accepts = [r0] ∧
      r0.network = "base-sepolia" ∧ r0.amount = "100000") :=
  c6_negotiation_402 collab0 routes0 ctx6 none cfg0 (by decide) rfl rfl (by decide) (by decide)
